import Mathlib

/-!
Verification of the issue categorization and README section synthesis pipeline
(`update-readme-with-issues.js`): a shallow embedding of the pure data
transformations (label normalization, issue categorization, markdown
rendering, marker-scoped document splice, paginated fetch loop), together
with theorems checking the natural-language specification against them.

Conventions of the embedding:
- JavaScript strings are Lean `String`s; `.toLowerCase()` is `String.toLower`;
  `String.prototype.includes` is `strIncludes`.
- A JS label value is either a bare string, or an arbitrary non-string value
  whose `name` field is either a (possibly empty) string or absent/not a
  string (`Label.obj (some s)` / `Label.obj none`); `label?.name || x`
  yields `x` when the name is absent or the empty string (both are falsy).
- Missing-or-null `labels` arrays (`issue.labels || []`) are
  `Option (List Label)` with `Option.getD []`.
- Timestamps are milliseconds since the epoch as `Int`; `closed_at: null`
  parses via `new Date(null)` to the epoch, i.e. `Option.getD 0`;
  `thirtyDaysAgo` is `now - 30 * 86400000` (the UTC reading of
  `setDate(getDate() - 30)`).
- The wall clock observed during one render is frozen into a `Clock` value
  carrying the millisecond reading plus its two string renderings (date-only
  and full ISO), which the source obtains from `new Date()`.
-/

/-- A label as delivered by the tracker: either a bare string, or a
structured value whose `name` field may be a string or absent. -/
inductive Label where
  | str : String → Label
  | obj : Option String → Label
deriving DecidableEq, Repr

/-- The fields of a fetched issue record that the pipeline reads.
`pull_request` is the presence of the pull-request marker property. -/
structure Issue where
  number : Nat
  title : String
  state : String
  labels : Option (List Label)
  assignee : Option String
  closed_at : Option Int
  html_url : String
  pull_request : Bool
deriving DecidableEq, Repr

/-- Model of `String.prototype.includes` on
character lists: does `pat` occur contiguously in `s`? -/
def subOccurs (pat : List Char) : List Char → Bool
  | [] => pat.isEmpty
  | c :: rest => pat.isPrefixOf (c :: rest) || subOccurs pat rest

/-- JavaScript `s.includes(pat)`. -/
def strIncludes (s pat : String) : Bool :=
  subOccurs pat.data s.data

/-- The raw display name the categorizer extracts from a label before
lowercasing: the string itself, or `label?.name || ''`. -/
def catLabelRaw : Label → String
  | .str s => s
  | .obj name => name.getD ""

/-- JavaScript `toLowerCase`, written as a structural map over the
character list (the same per-character lowering as `String.toLower`). -/
def jsToLower (s : String) : String :=
  String.mk (s.data.map Char.toLower)

/-- Label normalization in `categorizeIssues`:
`typeof label === 'string' ? label.toLowerCase() : (label?.name || '').toLowerCase()`. -/
def categorizeLabelName : Label → String
  | .str s => jsToLower s
  | .obj name => jsToLower (name.getD "")

/-- Label normalization in `formatIssueForReadme`:
`typeof l === 'string' ? l : (l?.name || 'unknown')`. -/
def renderLabelName : Label → String
  | .str s => s
  | .obj name =>
    match name with
    | some s => if s = "" then "unknown" else s
    | none => "unknown"

theorem categorizeLabelName_eq (l : Label) :
    categorizeLabelName l = jsToLower (catLabelRaw l) := by
  cases l <;> rfl

/-- The lowercased label-name list `labels` computed inside
`categorizeIssues`: `(issue.labels || []).map(...)`. -/
def issueLabels (issue : Issue) : List String :=
  (issue.labels.getD []).map categorizeLabelName

/-- Source condition `labels.some(l => l.includes('bug') || l.includes('error') || l.includes('fix'))`. -/
def bugMatch (issue : Issue) : Bool :=
  (issueLabels issue).any fun l =>
    strIncludes l "bug" || strIncludes l "error" || strIncludes l "fix"

/-- Source condition `labels.some(l => l.includes('enhancement') || l.includes('feature') || l.includes('improvement'))`. -/
def enhancementMatch (issue : Issue) : Bool :=
  (issueLabels issue).any fun l =>
    strIncludes l "enhancement" || strIncludes l "feature" || strIncludes l "improvement"

/-- Source condition `labels.some(l => l.includes('documentation') || l.includes('docs'))`. -/
def docMatch (issue : Issue) : Bool :=
  (issueLabels issue).any fun l =>
    strIncludes l "documentation" || strIncludes l "docs"

/-- Source condition `labels.some(l => l.includes('help wanted') || l.includes('help-wanted'))`. -/
def helpWantedMatch (issue : Issue) : Bool :=
  (issueLabels issue).any fun l =>
    strIncludes l "help wanted" || strIncludes l "help-wanted"

/-- Source condition `labels.some(l => l.includes('good first issue') || l.includes('beginner'))`. -/
def goodFirstMatch (issue : Issue) : Bool :=
  (issueLabels issue).any fun l =>
    strIncludes l "good first issue" || strIncludes l "beginner"

/-- The seven buckets built by `categorizeIssues`.  The source field
`documentation` is called `documentationList` here. -/
structure Categories where
  open_ : List Issue
  closed : List Issue
  bugs : List Issue
  enhancements : List Issue
  documentationList : List Issue
  help_wanted : List Issue
  good_first_issue : List Issue
deriving DecidableEq, Repr

/-- Embedding of `categorizeIssues`: one pass over the issue list; pull requests are
skipped entirely; state decides open vs closed; the five label buckets are
filled independently by keyword containment.  The `forEach`/`push` loop of
the source appends in input order, which the head-first recursion mirrors
by prepending. -/
def categorizeIssues : List Issue → Categories
  | [] => ⟨[], [], [], [], [], [], []⟩
  | issue :: rest =>
    let c := categorizeIssues rest
    if issue.pull_request then c
    else
      { open_ := if issue.state = "open" then issue :: c.open_ else c.open_
        closed := if issue.state = "open" then c.closed else issue :: c.closed
        bugs := if bugMatch issue then issue :: c.bugs else c.bugs
        enhancements := if enhancementMatch issue then issue :: c.enhancements else c.enhancements
        documentationList := if docMatch issue then issue :: c.documentationList else c.documentationList
        help_wanted := if helpWantedMatch issue then issue :: c.help_wanted else c.help_wanted
        good_first_issue := if goodFirstMatch issue then issue :: c.good_first_issue else c.good_first_issue }

theorem categorize_open_eq (issues : List Issue) :
    (categorizeIssues issues).open_ =
      issues.filter fun i => !i.pull_request && i.state = "open" := by
  induction issues with
  | nil => rfl
  | cons i rest ih =>
    by_cases hpr : i.pull_request <;> by_cases hst : i.state = "open" <;>
      simp [categorizeIssues, List.filter_cons, hpr, hst, ih]

theorem categorize_closed_eq (issues : List Issue) :
    (categorizeIssues issues).closed =
      issues.filter fun i => !i.pull_request && !(i.state = "open" : Bool) := by
  induction issues with
  | nil => rfl
  | cons i rest ih =>
    by_cases hpr : i.pull_request <;> by_cases hst : i.state = "open" <;>
      simp [categorizeIssues, List.filter_cons, hpr, hst, ih]

theorem categorize_bugs_eq (issues : List Issue) :
    (categorizeIssues issues).bugs =
      issues.filter fun i => !i.pull_request && bugMatch i := by
  induction issues with
  | nil => rfl
  | cons i rest ih =>
    by_cases hpr : i.pull_request <;> by_cases hb : bugMatch i <;>
      simp [categorizeIssues, List.filter_cons, hpr, hb, ih]

theorem categorize_enhancements_eq (issues : List Issue) :
    (categorizeIssues issues).enhancements =
      issues.filter fun i => !i.pull_request && enhancementMatch i := by
  induction issues with
  | nil => rfl
  | cons i rest ih =>
    by_cases hpr : i.pull_request <;> by_cases hb : enhancementMatch i <;>
      simp [categorizeIssues, List.filter_cons, hpr, hb, ih]

theorem categorize_documentationList_eq (issues : List Issue) :
    (categorizeIssues issues).documentationList =
      issues.filter fun i => !i.pull_request && docMatch i := by
  induction issues with
  | nil => rfl
  | cons i rest ih =>
    by_cases hpr : i.pull_request <;> by_cases hb : docMatch i <;>
      simp [categorizeIssues, List.filter_cons, hpr, hb, ih]

theorem categorize_help_wanted_eq (issues : List Issue) :
    (categorizeIssues issues).help_wanted =
      issues.filter fun i => !i.pull_request && helpWantedMatch i := by
  induction issues with
  | nil => rfl
  | cons i rest ih =>
    by_cases hpr : i.pull_request <;> by_cases hb : helpWantedMatch i <;>
      simp [categorizeIssues, List.filter_cons, hpr, hb, ih]

theorem categorize_good_first_issue_eq (issues : List Issue) :
    (categorizeIssues issues).good_first_issue =
      issues.filter fun i => !i.pull_request && goodFirstMatch i := by
  induction issues with
  | nil => rfl
  | cons i rest ih =>
    by_cases hpr : i.pull_request <;> by_cases hb : goodFirstMatch i <;>
      simp [categorizeIssues, List.filter_cons, hpr, hb, ih]

/-- The backtick-quoted label list of a rendered line (`labelText` in the
source): empty when there are no labels. -/
def labelTextOf (labels : List Label) : String :=
  if labels.length > 0 then
    " `" ++ String.intercalate "`, `" (labels.map renderLabelName) ++ "`"
  else ""

/-- Embedding of `formatIssueForReadme(issue, includeState)`: one markdown bullet line
for an issue.  The default argument `includeState = true` of the source is
passed explicitly at each call site below. -/
def formatIssueForReadme (issue : Issue) (includeState : Bool) : String :=
  let state := if issue.state = "open" then "🔓" else "🔒"
  let stateText := if includeState then " " ++ state else ""
  let labelText := labelTextOf (issue.labels.getD [])
  let assignee :=
    match issue.assignee with
    | some login => " - Assigned to @" ++ login
    | none => ""
  "- [#" ++ toString issue.number ++ "](" ++ issue.html_url ++ ")" ++ stateText
    ++ " **" ++ issue.title ++ "**" ++ labelText ++ assignee

/-- The open-issues subsection of `generateIssuesSection`: guard on a
non-empty bucket, first 20 entries without the state icon, a pointer line
when more than 20 exist, then a blank line. -/
def openIssuesSection (openList : List Issue) (owner repo : String) : String :=
  if openList.length > 0 then
    "### 🔓 Open Issues (" ++ toString openList.length ++ ")\n\n"
      ++ String.join ((openList.take 20).map fun i => formatIssueForReadme i false ++ "\n")
      ++ (if openList.length > 20 then
            "\n... and " ++ toString (openList.length - 20)
              ++ " more open issues. [View all open issues](https://github.com/"
              ++ owner ++ "/" ++ repo ++ "/issues?q=is%3Aissue+is%3Aopen)\n"
          else "")
      ++ "\n"
  else ""

/-- The bug-reports subsection: first 10 entries, with the state icon. -/
def bugsSection (bugs : List Issue) : String :=
  if bugs.length > 0 then
    "### 🐛 Bug Reports (" ++ toString bugs.length ++ ")\n\n"
      ++ String.join ((bugs.take 10).map fun i => formatIssueForReadme i true ++ "\n")
      ++ "\n"
  else ""

/-- The enhancements subsection: first 10 entries, with the state icon. -/
def enhancementsSection (enhancements : List Issue) : String :=
  if enhancements.length > 0 then
    "### ✨ Feature Requests & Enhancements (" ++ toString enhancements.length ++ ")\n\n"
      ++ String.join ((enhancements.take 10).map fun i => formatIssueForReadme i true ++ "\n")
      ++ "\n"
  else ""

/-- The help-wanted subsection: first 5 entries, with the state icon. -/
def helpWantedSection (helpWanted : List Issue) : String :=
  if helpWanted.length > 0 then
    "### 🆘 Help Wanted (" ++ toString helpWanted.length ++ ")\n\n"
      ++ String.join ((helpWanted.take 5).map fun i => formatIssueForReadme i true ++ "\n")
      ++ "\n"
  else ""

/-- The good-first-issues subsection: no cap, with the state icon. -/
def goodFirstIssueSection (goodFirst : List Issue) : String :=
  if goodFirst.length > 0 then
    "### 🌟 Good First Issues (" ++ toString goodFirst.length ++ ")\n\n"
      ++ String.join (goodFirst.map fun i => formatIssueForReadme i true ++ "\n")
      ++ "\n"
  else ""

/-- Milliseconds in 30 days: the UTC reading of
`thirtyDaysAgo.setDate(thirtyDaysAgo.getDate() - 30)`. -/
def thirtyDaysMs : Int := 30 * 86400000

/-- Source expression `categories.closed.filter(closedDate > thirtyDaysAgo).slice(0, 10)`.
`new Date(issue.closed_at)` reads a `null` timestamp as the epoch
(`Option.getD 0`). -/
def recentlyClosedList (closedList : List Issue) (nowMs : Int) : List Issue :=
  (closedList.filter fun issue => decide (issue.closed_at.getD 0 > nowMs - thirtyDaysMs)).take 10

/-- The recently-closed subsection: the filtered, truncated list rendered
with the state icon; omitted when the list is empty. -/
def recentlyClosedSection (closedList : List Issue) (nowMs : Int) : String :=
  let recentlyClosed := recentlyClosedList closedList nowMs
  if recentlyClosed.length > 0 then
    "### ✅ Recently Closed Issues (" ++ toString recentlyClosed.length ++ ")\n\n"
      ++ String.join (recentlyClosed.map fun i => formatIssueForReadme i true ++ "\n")
      ++ "\n"
  else ""

/-- The statistics table and footer of the section, up to (and excluding)
the embedded full generation timestamp. -/
def statsSection (c : Categories) : String :=
  "### 📊 Issue Statistics\n\n| Category | Count |\n|----------|-------|\n| Total Issues | "
    ++ toString (c.open_.length + c.closed.length) ++ " |\n| Open Issues | "
    ++ toString c.open_.length ++ " |\n| Closed Issues | "
    ++ toString c.closed.length ++ " |\n| Bug Reports | "
    ++ toString c.bugs.length ++ " |\n| Feature Requests | "
    ++ toString c.enhancements.length ++ " |\n| Documentation | "
    ++ toString c.documentationList.length ++ " |\n| Help Wanted | "
    ++ toString c.help_wanted.length ++ " |\n| Good First Issues | "
    ++ toString c.good_first_issue.length
    ++ " |\n\n---\n\n*This section is automatically updated by GitHub Actions using the [GitHub MCP Server](https://github.com/github/github-mcp-server). Last update: "

/-- One frozen observation of the wall clock during a render: the
millisecond reading and the two string renderings the source takes from
`new Date()` (`toISOString().split('T')[0]` and `toISOString()`). -/
structure Clock where
  nowMs : Int
  dateStr : String
  isoStr : String
deriving DecidableEq, Repr

/-- Embedding of `generateIssuesSection(categories, repoInfo)`: the full markdown
fragment, assembled in source order — header block, open issues, bugs,
enhancements, help wanted, good first issues, recently closed, statistics
table with the generation timestamp. -/
def generateIssuesSection (c : Categories) (owner repo : String) (clk : Clock) : String :=
  "## 📋 Current Issues\n\n> **Repository:** [" ++ owner ++ "/" ++ repo
    ++ "](https://github.com/" ++ owner ++ "/" ++ repo ++ ")  \n> **Last Updated:** "
    ++ clk.dateStr ++ "  \n> **Total Issues:** "
    ++ toString (c.open_.length + c.closed.length) ++ " (" ++ toString c.open_.length
    ++ " open, " ++ toString c.closed.length ++ " closed)\n\n"
    ++ openIssuesSection c.open_ owner repo
    ++ bugsSection c.bugs
    ++ enhancementsSection c.enhancements
    ++ helpWantedSection c.help_wanted
    ++ goodFirstIssueSection c.good_first_issue
    ++ recentlyClosedSection c.closed clk.nowMs
    ++ statsSection c
    ++ clk.isoStr
    ++ "*\n\n"

/-- The fixed heading marker of the generated section. -/
def issuesMarker : String := "## 📋 Current Issues"

/-- Split `s` at the first occurrence of `marker`: returns the text before
the occurrence and the text after it, or `none` when `marker` does not
occur.  Models the regex engine finding the earliest match start of
`## 📋 Current Issues[\s\S]*?(?=##|$)`. -/
def splitAtMarker (marker : List Char) : List Char → Option (List Char × List Char)
  | [] => if marker.isEmpty then some ([], []) else none
  | c :: rest =>
    if marker.isPrefixOf (c :: rest) then some ([], (c :: rest).drop marker.length)
    else
      match splitAtMarker marker rest with
      | some (pre, post) => some (c :: pre, post)
      | none => none

/-- Drop the shortest prefix of `s` such that the remainder starts with
`##` (or drop all of `s` when `##` never occurs).  Models the lazy
`[\s\S]*?` bounded by the lookahead `(?=##|$)`: the match ends at the
first position where `##` follows, or at end of input. -/
def dropUntilHH : List Char → List Char
  | [] => []
  | c :: rest => if "##".data.isPrefixOf (c :: rest) then c :: rest else dropUntilHH rest

/-- JavaScript `String.prototype.trim`: strip whitespace from both ends. -/
def jsTrim (s : List Char) : List Char :=
  ((s.dropWhile Char.isWhitespace).reverse.dropWhile Char.isWhitespace).reverse

/-- Embedding of `updateReadme` on an existing document: remove the first regex match of
`## 📋 Current Issues[\s\S]*?(?=##|$)` if any, then `trim()` the remainder
and append the fresh section after a blank line. -/
def updateReadme (readmeContent issuesSection : String) : String :=
  let removed :=
    match splitAtMarker issuesMarker.data readmeContent.data with
    | some (pre, post) => pre ++ dropUntilHH post
    | none => readmeContent.data
  String.mk (jsTrim removed) ++ "\n\n" ++ issuesSection

/-- The fixed page size of `fetchAllIssues`. -/
def perPage : Nat := 100

/-- One run of the `while (true)` pagination loop of `fetchAllIssues`.
`source p` is the parsed issue array of the tracker's response for page
`p`, or `none` when the response carries no text content.  `fuel` bounds
the number of iterations (the source loop has no such bound; exhausting
the fuel, returned as `none`, models non-termination).  Besides the
accumulated issues the model records the trace of requested page numbers. -/
def fetchLoop (source : Nat → Option (List Issue)) :
    Nat → Nat → List Issue → List Nat → Option (List Issue × List Nat)
  | 0, _, _, _ => none
  | fuel + 1, page, acc, trace =>
    match source page with
    | none => some (acc, trace ++ [page])
    | some issues =>
      if issues.length = 0 then some (acc, trace ++ [page])
      else if issues.length < perPage then some (acc ++ issues, trace ++ [page])
      else fetchLoop source fuel (page + 1) (acc ++ issues) (trace ++ [page])

/-- Embedding of `fetchAllIssues`: start at page 1 with an empty accumulator. -/
def fetchAllIssues (source : Nat → Option (List Issue)) (fuel : Nat) :
    Option (List Issue × List Nat) :=
  fetchLoop source fuel 1 [] []

/-- A document produced by an earlier run: the marker, its header block,
a generated subsection (starting with a level-3 heading), then unrelated
content under a later top-level heading. -/
def docC1 : String :=
  "# T\n\n## 📋 Current Issues\n\n> Repo stats\n\n### 🔓 Open Issues (1)\n\n- old line\n\n## License\n\nMIT\n"

/-- Claim C1: the update is claimed to remove the region from the marker up
to the next top-level heading.  The code's lookahead `(?=##|$)` instead
stops at the first occurrence of `##` after the marker — which the `###`
subheadings of the generated section satisfy — so on `docC1` only the
header block is removed and the stale subsection `### 🔓 Open Issues`
survives; the result claimed by the specification is not produced. -/
theorem updateReadme_stops_at_subheading :
    updateReadme docC1 "NEW" =
      "# T\n\n### 🔓 Open Issues (1)\n\n- old line\n\n## License\n\nMIT\n\nNEW"
    ∧ updateReadme docC1 "NEW" ≠ "# T\n\n## License\n\nMIT\n\nNEW" := by
  exact ⟨by decide, by decide⟩

/-- The concrete issue of the specification's example: open, unassigned,
number 42, title `Crash on startup`, single label `bug`. -/
def issue42 : Issue :=
  { number := 42, title := "Crash on startup", state := "open",
    labels := some [Label.str "bug"], assignee := none, closed_at := none,
    html_url := "https://github.com/o/r/issues/42", pull_request := false }

/-- Claim C2 counterexample: the bug-reports subsection renders issue 42
with the 🔓 state icon (its lines are produced with `includeState = true`
unconditionally), so the line is not the icon-free line the claim states. -/
theorem bugsSection_icon_counterexample :
    bugsSection [issue42] =
      "### 🐛 Bug Reports (1)\n\n- [#42](https://github.com/o/r/issues/42) 🔓 **Crash on startup** `bug`\n\n"
    ∧ formatIssueForReadme issue42 true ≠
      "- [#42](https://github.com/o/r/issues/42) **Crash on startup** `bug`" := by
  exact ⟨by decide, by decide⟩

/-- Claim C2 (amended): the state icon is controlled by a fixed per-call
flag, not by whether the subsection mixes states — the open-issues
subsection renders lines without the icon and every other subsection
always includes it.  Issue 42 renders without the icon (and with no
assignee clause) in the open-issues list and with 🔓 in the bug-reports
list. -/
theorem issue42_rendering :
    formatIssueForReadme issue42 false =
      "- [#42](https://github.com/o/r/issues/42) **Crash on startup** `bug`"
    ∧ formatIssueForReadme issue42 true =
      "- [#42](https://github.com/o/r/issues/42) 🔓 **Crash on startup** `bug`"
    ∧ openIssuesSection [issue42] "o" "r" =
      "### 🔓 Open Issues (1)\n\n- [#42](https://github.com/o/r/issues/42) **Crash on startup** `bug`\n\n"
    ∧ bugsSection [issue42] =
      "### 🐛 Bug Reports (1)\n\n- [#42](https://github.com/o/r/issues/42) 🔓 **Crash on startup** `bug`\n\n" := by
  refine ⟨by decide, by decide, by decide, by decide⟩

/-- Claim C9: every bucket produced by the categorizer is a subsequence of
the input list — no bucket reorders, duplicates, or invents entries. -/
theorem categorize_buckets_sublist (issues : List Issue) :
    (categorizeIssues issues).open_.Sublist issues
    ∧ (categorizeIssues issues).closed.Sublist issues
    ∧ (categorizeIssues issues).bugs.Sublist issues
    ∧ (categorizeIssues issues).enhancements.Sublist issues
    ∧ (categorizeIssues issues).documentationList.Sublist issues
    ∧ (categorizeIssues issues).help_wanted.Sublist issues
    ∧ (categorizeIssues issues).good_first_issue.Sublist issues := by
  refine ⟨?_, ?_, ?_, ?_, ?_, ?_, ?_⟩
  · rw [categorize_open_eq]; exact List.filter_sublist issues
  · rw [categorize_closed_eq]; exact List.filter_sublist issues
  · rw [categorize_bugs_eq]; exact List.filter_sublist issues
  · rw [categorize_enhancements_eq]; exact List.filter_sublist issues
  · rw [categorize_documentationList_eq]; exact List.filter_sublist issues
  · rw [categorize_help_wanted_eq]; exact List.filter_sublist issues
  · rw [categorize_good_first_issue_eq]; exact List.filter_sublist issues

theorem filter_state_split_perm (issues : List Issue) :
    ((issues.filter fun i => !i.pull_request && i.state = "open")
        ++ issues.filter fun i => !i.pull_request && !(i.state = "open" : Bool)).Perm
      (issues.filter fun i => !i.pull_request) := by
  induction issues with
  | nil => simp
  | cons i rest ih =>
    by_cases hpr : i.pull_request
    · simpa [List.filter_cons, hpr] using ih
    · by_cases hst : i.state = "open"
      · simpa [List.filter_cons, hpr, hst] using ih.cons i
      · simp only [List.filter_cons, hpr, hst]
        simp only [Bool.not_false, Bool.not_true, Bool.and_true, Bool.and_false,
          decide_eq_true_eq, if_neg, if_pos]
        refine List.Perm.trans ?_ ((ih).cons i)
        exact List.perm_middle

/-- Claim C3: the open and closed buckets partition the input with
pull-request entries removed — their union (as multisets) is the
pull-request-free input, they are disjoint, and membership in each is
decided solely by the `state` field. -/
theorem categorize_state_partition (issues : List Issue) :
    ((categorizeIssues issues).open_ ++ (categorizeIssues issues).closed).Perm
      (issues.filter fun i => !i.pull_request)
    ∧ (categorizeIssues issues).open_.Disjoint (categorizeIssues issues).closed
    ∧ (∀ i, i ∈ (categorizeIssues issues).open_ ↔
        i ∈ issues ∧ i.pull_request = false ∧ i.state = "open")
    ∧ (∀ i, i ∈ (categorizeIssues issues).closed ↔
        i ∈ issues ∧ i.pull_request = false ∧ i.state ≠ "open") := by
  refine ⟨?_, ?_, ?_, ?_⟩
  · rw [categorize_open_eq, categorize_closed_eq]
    exact filter_state_split_perm issues
  · intro a h1 h2
    rw [categorize_open_eq, List.mem_filter] at h1
    rw [categorize_closed_eq, List.mem_filter] at h2
    simp only [Bool.and_eq_true, Bool.not_eq_true', decide_eq_true_eq] at h1 h2
    exact absurd h1.2.2 (by simpa using h2.2.2)
  · intro i
    rw [categorize_open_eq, List.mem_filter]
    simp [Bool.and_eq_true, Bool.not_eq_true', decide_eq_true_eq, and_assoc]
  · intro i
    rw [categorize_closed_eq, List.mem_filter]
    simp [Bool.and_eq_true, Bool.not_eq_true', decide_eq_true_eq, and_assoc]

/-- Case-insensitive containment of a keyword in a label's display name,
as the claim states it: containment is tested against the lowercased raw
name. -/
def ciHit (l : Label) (kw : String) : Bool :=
  strIncludes (jsToLower (catLabelRaw l)) kw

theorem any_map_categorizeLabelName (xs : List Label) (f : String → Bool) :
    ((xs.map categorizeLabelName).any f) = xs.any fun l => f (jsToLower (catLabelRaw l)) := by
  induction xs with
  | nil => rfl
  | cons x rest ih => simp [categorizeLabelName_eq, ih]

theorem bugMatch_eq (issue : Issue) :
    bugMatch issue = ((issue.labels.getD []).any fun l =>
      ciHit l "bug" || ciHit l "error" || ciHit l "fix") := by
  simp [bugMatch, issueLabels, any_map_categorizeLabelName, ciHit]

theorem enhancementMatch_eq (issue : Issue) :
    enhancementMatch issue = ((issue.labels.getD []).any fun l =>
      ciHit l "enhancement" || ciHit l "feature" || ciHit l "improvement") := by
  simp [enhancementMatch, issueLabels, any_map_categorizeLabelName, ciHit]

theorem docMatch_eq (issue : Issue) :
    docMatch issue = ((issue.labels.getD []).any fun l =>
      ciHit l "documentation" || ciHit l "docs") := by
  simp [docMatch, issueLabels, any_map_categorizeLabelName, ciHit]

theorem helpWantedMatch_eq (issue : Issue) :
    helpWantedMatch issue = ((issue.labels.getD []).any fun l =>
      ciHit l "help wanted" || ciHit l "help-wanted") := by
  simp [helpWantedMatch, issueLabels, any_map_categorizeLabelName, ciHit]

theorem goodFirstMatch_eq (issue : Issue) :
    goodFirstMatch issue = ((issue.labels.getD []).any fun l =>
      ciHit l "good first issue" || ciHit l "beginner") := by
  simp [goodFirstMatch, issueLabels, any_map_categorizeLabelName, ciHit]

/-- Claim C4: for a non-pull-request issue of the input, membership in each
label-derived bucket is determined solely by case-insensitive substring
containment of that bucket's keywords in the issue's label names, and an
issue with zero labels belongs to zero label-derived buckets. -/
theorem label_bucket_membership (issues : List Issue) (issue : Issue)
    (hmem : issue ∈ issues) (hpr : issue.pull_request = false) :
    (issue ∈ (categorizeIssues issues).bugs ↔
      ((issue.labels.getD []).any fun l =>
        ciHit l "bug" || ciHit l "error" || ciHit l "fix") = true)
    ∧ (issue ∈ (categorizeIssues issues).enhancements ↔
      ((issue.labels.getD []).any fun l =>
        ciHit l "enhancement" || ciHit l "feature" || ciHit l "improvement") = true)
    ∧ (issue ∈ (categorizeIssues issues).documentationList ↔
      ((issue.labels.getD []).any fun l =>
        ciHit l "documentation" || ciHit l "docs") = true)
    ∧ (issue ∈ (categorizeIssues issues).help_wanted ↔
      ((issue.labels.getD []).any fun l =>
        ciHit l "help wanted" || ciHit l "help-wanted") = true)
    ∧ (issue ∈ (categorizeIssues issues).good_first_issue ↔
      ((issue.labels.getD []).any fun l =>
        ciHit l "good first issue" || ciHit l "beginner") = true)
    ∧ (issue.labels.getD [] = [] →
        issue ∉ (categorizeIssues issues).bugs
        ∧ issue ∉ (categorizeIssues issues).enhancements
        ∧ issue ∉ (categorizeIssues issues).documentationList
        ∧ issue ∉ (categorizeIssues issues).help_wanted
        ∧ issue ∉ (categorizeIssues issues).good_first_issue) := by
  have hbug : issue ∈ (categorizeIssues issues).bugs ↔
      ((issue.labels.getD []).any fun l =>
        ciHit l "bug" || ciHit l "error" || ciHit l "fix") = true := by
    rw [categorize_bugs_eq, List.mem_filter, bugMatch_eq]
    simp [hmem, hpr]
  have henh : issue ∈ (categorizeIssues issues).enhancements ↔
      ((issue.labels.getD []).any fun l =>
        ciHit l "enhancement" || ciHit l "feature" || ciHit l "improvement") = true := by
    rw [categorize_enhancements_eq, List.mem_filter, enhancementMatch_eq]
    simp [hmem, hpr]
  have hdoc : issue ∈ (categorizeIssues issues).documentationList ↔
      ((issue.labels.getD []).any fun l =>
        ciHit l "documentation" || ciHit l "docs") = true := by
    rw [categorize_documentationList_eq, List.mem_filter, docMatch_eq]
    simp [hmem, hpr]
  have hhelp : issue ∈ (categorizeIssues issues).help_wanted ↔
      ((issue.labels.getD []).any fun l =>
        ciHit l "help wanted" || ciHit l "help-wanted") = true := by
    rw [categorize_help_wanted_eq, List.mem_filter, helpWantedMatch_eq]
    simp [hmem, hpr]
  have hgfi : issue ∈ (categorizeIssues issues).good_first_issue ↔
      ((issue.labels.getD []).any fun l =>
        ciHit l "good first issue" || ciHit l "beginner") = true := by
    rw [categorize_good_first_issue_eq, List.mem_filter, goodFirstMatch_eq]
    simp [hmem, hpr]
  refine ⟨hbug, henh, hdoc, hhelp, hgfi, fun h => ⟨?_, ?_, ?_, ?_, ?_⟩⟩
  · rw [hbug]; simp [h]
  · rw [henh]; simp [h]
  · rw [hdoc]; simp [h]
  · rw [hhelp]; simp [h]
  · rw [hgfi]; simp [h]

/-- An issue carrying the single label `BUG`: keyword containment must be
case-insensitive. -/
def issueBugW : Issue :=
  { number := 1, title := "t", state := "open", labels := some [Label.str "BUG"],
    assignee := none, closed_at := none, html_url := "u", pull_request := false }

/-- Witness for claim C4 at a concrete input. -/
theorem label_bucket_membership_witness :
    issueBugW ∈ (categorizeIssues [issueBugW]).bugs :=
  (label_bucket_membership [issueBugW] issueBugW (by simp) rfl).1.mpr (by decide)

/-- The open-issues subsection as claim C5 states it: the first
`min(20, n)` entries of the bucket in input order, a single pointer line
when `n > 20`, nothing at all when the bucket is empty. -/
def openIssuesSectionSpec (openList : List Issue) (owner repo : String) : String :=
  if openList.length = 0 then ""
  else
    "### 🔓 Open Issues (" ++ toString openList.length ++ ")\n\n"
      ++ String.join ((openList.take (min 20 openList.length)).map
          fun i => formatIssueForReadme i false ++ "\n")
      ++ (if openList.length > 20 then
            "\n... and " ++ toString (openList.length - 20)
              ++ " more open issues. [View all open issues](https://github.com/"
              ++ owner ++ "/" ++ repo ++ "/issues?q=is%3Aissue+is%3Aopen)\n"
          else "")
      ++ "\n"

/-- Claim C5: the rendered open-issues subsection lists exactly the first
`min(20, n)` bucket entries in input order, appends exactly one pointer
line (with the issue-search link) when `n > 20` and none otherwise, and is
omitted entirely when the bucket is empty. -/
theorem openIssuesSection_eq_spec (openList : List Issue) (owner repo : String) :
    openIssuesSection openList owner repo = openIssuesSectionSpec openList owner repo := by
  unfold openIssuesSection openIssuesSectionSpec
  have htake : openList.take (min 20 openList.length) = openList.take 20 := by
    rw [← List.take_take, List.take_length]
  rw [htake]
  by_cases h : openList.length = 0
  · simp [h]
  · simp [h, Nat.pos_of_ne_zero h]

/-- The part of the rendered section before the embedded date. -/
def genHeaderPre (owner repo : String) : String :=
  "## 📋 Current Issues\n\n> **Repository:** [" ++ owner ++ "/" ++ repo
    ++ "](https://github.com/" ++ owner ++ "/" ++ repo ++ ")  \n> **Last Updated:** "

/-- The part of the rendered section between the embedded date and the
embedded generation timestamp; the clock enters it only through the
30-day recently-closed filter. -/
def genMid (c : Categories) (owner repo : String) (nowMs : Int) : String :=
  "  \n> **Total Issues:** " ++ toString (c.open_.length + c.closed.length)
    ++ " (" ++ toString c.open_.length ++ " open, " ++ toString c.closed.length ++ " closed)\n\n"
    ++ openIssuesSection c.open_ owner repo
    ++ bugsSection c.bugs
    ++ enhancementsSection c.enhancements
    ++ helpWantedSection c.help_wanted
    ++ goodFirstIssueSection c.good_first_issue
    ++ recentlyClosedSection c.closed nowMs
    ++ statsSection c

/-- The part of the rendered section after the generation timestamp. -/
def genPost : String := "*\n\n"

theorem generateIssuesSection_factor (c : Categories) (owner repo : String) (clk : Clock) :
    generateIssuesSection c owner repo clk =
      genHeaderPre owner repo ++ clk.dateStr ++ genMid c owner repo clk.nowMs
        ++ clk.isoStr ++ genPost := by
  simp [generateIssuesSection, genHeaderPre, genMid, genPost, String.append_assoc]

/-- A closed issue whose `closed_at` is the epoch. -/
def issueC6 : Issue :=
  { number := 7, title := "Old bug", state := "closed", labels := none,
    assignee := none, closed_at := some 0, html_url := "u", pull_request := false }

/-- Buckets holding exactly the one closed issue `issueC6`. -/
def catC6 : Categories := ⟨[], [issueC6], [], [], [], [], []⟩

/-- A clock one day after the epoch, with fixed date and timestamp strings. -/
def clkC6a : Clock := ⟨86400000, "D", "T"⟩

/-- A clock one hundred days after the epoch, with the same date and
timestamp strings as `clkC6a`. -/
def clkC6b : Clock := ⟨8640000000, "D", "T"⟩

/-- Claim C6 counterexample: two runs on identical buckets whose clock
readings render the same date and timestamp strings nevertheless produce
different fragments, because the recently-closed subsection also depends
on the clock — `issueC6` is within the 30-day window of `clkC6a` but not
of `clkC6b`. -/
theorem generateIssuesSection_clock_counterexample :
    clkC6a.dateStr = clkC6b.dateStr ∧ clkC6a.isoStr = clkC6b.isoStr ∧
    generateIssuesSection catC6 "o" "r" clkC6a ≠ generateIssuesSection catC6 "o" "r" clkC6b := by
  refine ⟨rfl, rfl, ?_⟩
  decide

/-- Claim C6 (amended): with a frozen clock the renderer is a pure
function of its inputs, so equal inputs give byte-identical output; and
for two clock readings under which the 30-day recently-closed filter
selects the same issues, the two outputs share all text outside the
embedded date and generation-timestamp fields.  (Without that proviso the
outputs can differ elsewhere, as the counterexample shows.) -/
theorem generateIssuesSection_clock_dependence (c : Categories) (owner repo : String)
    (clk1 clk2 : Clock)
    (h : recentlyClosedList c.closed clk1.nowMs = recentlyClosedList c.closed clk2.nowMs) :
    generateIssuesSection c owner repo clk1 =
      genHeaderPre owner repo ++ clk1.dateStr ++ genMid c owner repo clk1.nowMs
        ++ clk1.isoStr ++ genPost
    ∧ generateIssuesSection c owner repo clk2 =
      genHeaderPre owner repo ++ clk2.dateStr ++ genMid c owner repo clk1.nowMs
        ++ clk2.isoStr ++ genPost := by
  have hsec : recentlyClosedSection c.closed clk2.nowMs
      = recentlyClosedSection c.closed clk1.nowMs := by
    unfold recentlyClosedSection
    rw [h]
  have hmid : genMid c owner repo clk2.nowMs = genMid c owner repo clk1.nowMs := by
    unfold genMid
    rw [hsec]
  exact ⟨generateIssuesSection_factor c owner repo clk1,
    by rw [generateIssuesSection_factor c owner repo clk2, hmid]⟩

/-- Witness for claim C6 at a concrete input. -/
theorem generateIssuesSection_clock_dependence_witness :
    generateIssuesSection catC6 "o" "r" clkC6a =
      genHeaderPre "o" "r" ++ "D" ++ genMid catC6 "o" "r" 86400000 ++ "T" ++ genPost := by
  exact (generateIssuesSection_clock_dependence catC6 "o" "r" clkC6a clkC6a rfl).1

theorem fetchLoop_run (source : Nat → Option (List Issue)) :
    ∀ (d start : Nat) (acc : List Issue) (trace : List Nat) (fuel : Nat),
      (∀ p, start ≤ p → p < start + d → ∃ l, source p = some l ∧ perPage ≤ l.length) →
      (∃ lst, source (start + d) = some lst ∧ lst.length < perPage) →
      d + 1 ≤ fuel →
      fetchLoop source fuel start acc trace =
        some (acc ++ (List.range' start (d + 1)).flatMap (fun p => (source p).getD []),
          trace ++ List.range' start (d + 1)) := by
  intro d
  induction d with
  | zero =>
    intro start acc trace fuel hfull hstop hfuel
    obtain ⟨f, rfl⟩ : ∃ f, fuel = f + 1 := ⟨fuel - 1, by omega⟩
    obtain ⟨lst, hsrc, hlen⟩ := hstop
    rw [Nat.add_zero] at hsrc
    by_cases h0 : lst.length = 0
    · have hnil : lst = [] := List.length_eq_zero.mp h0
      subst hnil
      simp [fetchLoop, hsrc, List.range']
    · simp [fetchLoop, hsrc, h0, hlen, List.range']
  | succ d ih =>
    intro start acc trace fuel hfull hstop hfuel
    obtain ⟨f, rfl⟩ : ∃ f, fuel = f + 1 := ⟨fuel - 1, by omega⟩
    obtain ⟨l, hsrc, hlen⟩ := hfull start (Nat.le_refl start) (by omega)
    have h0 : ¬l.length = 0 := by
      simp only [perPage] at hlen
      omega
    have h1 : ¬l.length < perPage := by omega
    have hrec := ih (start + 1) (acc ++ l) (trace ++ [start]) f
      (fun p hp1 hp2 => hfull p (by omega) (by omega))
      (by
        obtain ⟨lst, hs, hl⟩ := hstop
        exact ⟨lst, by rw [show start + 1 + d = start + (d + 1) from by omega]; exact hs, hl⟩)
      (by omega)
    simp only [fetchLoop, hsrc, if_neg h0, if_neg h1, hrec]
    rw [List.range'_succ start (d + 1) 1]
    simp [hsrc, List.append_assoc]

/-- Claim C7: the fetcher requests pages in strictly increasing order
starting at page 1 with page size 100, and — whenever pages 1 to `k - 1`
are full and page `k` is the first empty-or-short page — it terminates
(any fuel of at least `k` iterations suffices) returning the concatenation
of pages 1 through `k`. -/
theorem fetchAllIssues_pages (source : Nat → Option (List Issue)) (k fuel : Nat)
    (hk : 1 ≤ k)
    (hfull : ∀ p, 1 ≤ p → p < k → ∃ l, source p = some l ∧ perPage ≤ l.length)
    (hstop : ∃ lst, source k = some lst ∧ lst.length < perPage)
    (hfuel : k ≤ fuel) :
    fetchAllIssues source fuel =
      some ((List.range' 1 k).flatMap (fun p => (source p).getD []), List.range' 1 k)
    ∧ (List.range' 1 k).Chain' (· < ·)
    ∧ (List.range' 1 k).head? = some 1 := by
  obtain ⟨d, rfl⟩ : ∃ d, k = d + 1 := ⟨k - 1, by omega⟩
  refine ⟨?_, (List.pairwise_lt_range' 1 (d + 1) 1 (by omega)).chain', ?_⟩
  · have h := fetchLoop_run source d 1 [] [] fuel
      (fun p hp1 hp2 => hfull p hp1 (by omega))
      (by rw [show 1 + d = d + 1 from by omega]; exact hstop)
      (by omega)
    simpa using h
  · rw [List.range'_succ 1 d 1]
    rfl

/-- A placeholder issue used by concrete instantiations. -/
def dummyIssue : Issue :=
  { number := 1, title := "t", state := "open", labels := none,
    assignee := none, closed_at := none, html_url := "u", pull_request := false }

/-- A two-page source: page 1 is full (100 items), page 2 is short. -/
def sourceW : Nat → Option (List Issue) := fun p =>
  if p = 1 then some (List.replicate 100 dummyIssue) else some [dummyIssue]

/-- Witness for claim C7 at a concrete input. -/
theorem fetchAllIssues_pages_witness :
    fetchAllIssues sourceW 2 =
      some (List.replicate 100 dummyIssue ++ [dummyIssue], [1, 2]) := by
  have h := (fetchAllIssues_pages sourceW 2 2 (by omega)
    (by
      intro p hp1 hp2
      have hp : p = 1 := by omega
      subst hp
      exact ⟨List.replicate 100 dummyIssue, rfl, by simp [perPage]⟩)
    ⟨[dummyIssue], rfl, by simp [perPage]⟩
    (by omega)).1
  rw [h]
  simp [List.range', sourceW]

/-- The 30-day window as claim C8 states it: the issue has a `closed_at`
timestamp and its age at the given clock reading is under 30 days. -/
def withinThirtyDays (issue : Issue) (nowMs : Int) : Bool :=
  match issue.closed_at with
  | some t => decide (nowMs - t < thirtyDaysMs)
  | none => false

theorem recentlyClosedSection_empty_iff (closedList : List Issue) (nowMs : Int) :
    recentlyClosedSection closedList nowMs = "" ↔
      recentlyClosedList closedList nowMs = [] := by
  simp only [recentlyClosedSection]
  by_cases hl : (recentlyClosedList closedList nowMs).length > 0
  · rw [if_pos hl]
    constructor
    · intro hemp
      exfalso
      have hlen := congrArg String.length hemp
      simp only [String.length_append] at hlen
      have h1 : 0 < ("### ✅ Recently Closed Issues (" : String).length := by decide
      have h0 : ("" : String).length = 0 := rfl
      omega
    · intro hnil
      rw [hnil] at hl
      exact absurd hl (by simp)
  · rw [if_neg hl]
    simp only [gt_iff_lt, Nat.not_lt, Nat.le_zero] at hl
    simp [List.length_eq_zero.mp hl]

/-- Claim C8: for a closed bucket whose entries carry a `closed_at`
timestamp, the recently-closed list is exactly the issues closed within
the last 30 days of the render clock, in delivered order, truncated to the
first 10; and the subsection is omitted exactly when no issue qualifies. -/
theorem recentlyClosed_characterization (closedList : List Issue) (nowMs : Int)
    (h : ∀ i ∈ closedList, i.closed_at ≠ none) :
    recentlyClosedList closedList nowMs =
      (closedList.filter fun i => withinThirtyDays i nowMs).take 10
    ∧ (recentlyClosedSection closedList nowMs = "" ↔
        ∀ i ∈ closedList, withinThirtyDays i nowMs = false) := by
  have hfilter : (closedList.filter fun issue =>
        decide (issue.closed_at.getD 0 > nowMs - thirtyDaysMs))
      = closedList.filter fun i => withinThirtyDays i nowMs := by
    apply List.filter_congr
    intro i hi
    cases hc : i.closed_at with
    | none => exact absurd hc (h i hi)
    | some t =>
      simp only [withinThirtyDays, hc, Option.getD_some]
      rw [decide_eq_decide]
      omega
  have hlist : recentlyClosedList closedList nowMs
      = (closedList.filter fun i => withinThirtyDays i nowMs).take 10 := by
    unfold recentlyClosedList
    rw [hfilter]
  refine ⟨hlist, ?_⟩
  rw [recentlyClosedSection_empty_iff, hlist]
  constructor
  · intro hemp i hi
    have hnil : (closedList.filter fun i => withinThirtyDays i nowMs) = [] := by
      rcases List.take_eq_nil_iff.mp hemp with h10 | hfil
      · exact absurd h10 (by omega)
      · exact hfil
    by_contra hw
    have : i ∈ closedList.filter fun i => withinThirtyDays i nowMs :=
      List.mem_filter.mpr ⟨hi, by simpa using hw⟩
    rw [hnil] at this
    exact absurd this (List.not_mem_nil i)
  · intro hall
    have : (closedList.filter fun i => withinThirtyDays i nowMs) = [] :=
      List.filter_eq_nil_iff.mpr fun i hi => by simp [hall i hi]
    simp [this]

/-- A closed issue 10 milliseconds inside the 30-day window of `nowW`. -/
def issueRecentW : Issue :=
  { number := 2, title := "r", state := "closed", labels := none,
    assignee := none, closed_at := some 60, html_url := "u", pull_request := false }

/-- A closed issue outside the 30-day window of `nowW`. -/
def issueOldW : Issue :=
  { number := 3, title := "o", state := "closed", labels := none,
    assignee := none, closed_at := some 0, html_url := "u", pull_request := false }

/-- A clock reading slightly more than 30 days after the epoch. -/
def nowW : Int := thirtyDaysMs + 50

/-- Witness for claim C8 at a concrete input. -/
theorem recentlyClosed_characterization_witness :
    recentlyClosedList [issueRecentW, issueOldW] nowW = [issueRecentW] := by
  have h := (recentlyClosed_characterization [issueRecentW, issueOldW] nowW (by decide)).1
  rw [h]
  decide

/-- Claim C10: a label that is neither a string nor an object with a
non-empty `name` is normalized divergently by the two components — the
categorizer reads it as the empty string, so it contributes to no
label-derived bucket, while the renderer prints it as the literal
`unknown` inside the backtick-quoted label list.  (Neither component
throws: both normalizations are total.) -/
theorem malformed_label (name : Option String) (h : name = none ∨ name = some "") :
    categorizeLabelName (Label.obj name) = ""
    ∧ renderLabelName (Label.obj name) = "unknown"
    ∧ labelTextOf [Label.obj name] = " `unknown`"
    ∧ (∀ (issues : List Issue) (issue : Issue), issue ∈ issues →
        issue.pull_request = false → issue.labels = some [Label.obj name] →
        issue ∉ (categorizeIssues issues).bugs
        ∧ issue ∉ (categorizeIssues issues).enhancements
        ∧ issue ∉ (categorizeIssues issues).documentationList
        ∧ issue ∉ (categorizeIssues issues).help_wanted
        ∧ issue ∉ (categorizeIssues issues).good_first_issue) := by
  obtain rfl | rfl := h <;>
  · refine ⟨rfl, rfl, by decide, ?_⟩
    intro issues issue hmem hpr hlab
    have hlabels : issueLabels issue = [""] := by
      unfold issueLabels
      rw [hlab]
      rfl
    have hb : bugMatch issue = false := by
      simp only [bugMatch, hlabels]
      decide
    have he : enhancementMatch issue = false := by
      simp only [enhancementMatch, hlabels]
      decide
    have hd : docMatch issue = false := by
      simp only [docMatch, hlabels]
      decide
    have hh : helpWantedMatch issue = false := by
      simp only [helpWantedMatch, hlabels]
      decide
    have hg : goodFirstMatch issue = false := by
      simp only [goodFirstMatch, hlabels]
      decide
    refine ⟨?_, ?_, ?_, ?_, ?_⟩
    · rw [categorize_bugs_eq, List.mem_filter]
      simp [hb]
    · rw [categorize_enhancements_eq, List.mem_filter]
      simp [he]
    · rw [categorize_documentationList_eq, List.mem_filter]
      simp [hd]
    · rw [categorize_help_wanted_eq, List.mem_filter]
      simp [hh]
    · rw [categorize_good_first_issue_eq, List.mem_filter]
      simp [hg]

/-- Witness for claim C10 at a concrete input. -/
theorem malformed_label_witness :
    categorizeLabelName (Label.obj none) = ""
    ∧ renderLabelName (Label.obj none) = "unknown" :=
  ⟨(malformed_label none (Or.inl rfl)).1, (malformed_label none (Or.inl rfl)).2.1⟩
